import Mathlib

/-!
A shallow embedding of `app.py`, a single-file Streamlit application that
uploads two PDF documents, extracts their text, and asks one or two OpenAI
models for a natural-language comparison.

Modelling conventions:
* `st.secrets` is a lookup function `String → Option String` (`Secrets`);
  Python truthiness of the looked-up value (`if not openai_api_key`) is
  `isTruthy`, which is false for `none` and for the empty string.
* The OpenAI client call `client.responses.create(...)` is an oracle
  `Provider : Request → Except String String`: `Except.ok t` models a
  response whose `output_text` is `t`, `Except.error e` models the call
  raising an exception whose string rendering is `e`.  Each requester
  returns, besides its result string, the list of requests it actually
  sent to the provider; an empty list models "no network call".
* A PDF byte stream is modelled by its parsing behaviour (`PdfStream`):
  either `fitz.open` raises, or it yields a list of pages each of which
  either yields its text or raises in `page.get_text()`.
* Streamlit display calls (`st.warning`, `st.error`, `st.success`,
  `st.subheader`, `st.markdown`, `st_copy_to_clipboard`) become `UIEvent`
  values collected in order; the column index of `result_cols[i]` is
  recorded in the per-model events.
* Python string slicing `s[:n]` is `String.take n` (both count code
  points), and `str.format` on the fixed template is concatenation of the
  three literal template segments around the two substituted texts.
-/

namespace Comparator

/-- Python truthiness of `st.secrets.get(...)`: `None` and `""` are falsy. -/
def isTruthy : Option String → Bool
  | none => false
  | some s => s != ""

/-- The Streamlit secrets store, keyed by secret name. -/
abbrev Secrets := String → Option String

/-- The `input` field of a `client.responses.create` call: either a single
flattened string, or a list of role-tagged messages. -/
inductive RequestInput where
  | flat (text : String)
  | messages (msgs : List (String × String))
deriving DecidableEq, Repr

/-- One outbound `client.responses.create` request: model identifier, the
optional `reasoning` effort parameter, and the input payload. -/
structure Request where
  model : String
  reasoning : Option String
  input : RequestInput
deriving DecidableEq, Repr

/-- The OpenAI endpoint: returns the `output_text` of the response, or the
string rendering of a raised exception. -/
abbrev Provider := Request → Except String String

/-- `max_tokens_per_doc = 60000` (app.py lines 74 and 108). -/
def max_tokens_per_doc : Nat := 60000

/-- Literal text of `COMPARISON_PROMPT_TEMPLATE` before the first
placeholder (app.py lines 41-43). -/
def tpl_before_doc1 : String :=
  "Compare the following two documents and highlight their key similarities and differences.\nDocument 1:\n"

/-- Literal text of `COMPARISON_PROMPT_TEMPLATE` between the two
placeholders (app.py lines 43-46). -/
def tpl_between_docs : String := "\n\nDocument 2:\n"

/-- Literal text of `COMPARISON_PROMPT_TEMPLATE` after the second
placeholder: the five fixed analytical headings (app.py lines 46-56). -/
def tpl_after_doc2 : String :=
  "\n\nPlease provide a concise and clear comparison, focusing on:\n1.  **Main Topics/Themes:** What are the central subjects or ideas discussed in each document?\n2.  **Key Arguments/Points:** What are the most important arguments or specific points made in each document?\n3.  **Similarities:** What aspects, facts, or conclusions are common to both documents?\n4.  **Differences/Discrepancies:** What are the major differences, conflicting information, or unique points in each document?\n5.  **Overall Tone and Purpose:** How would you describe the tone (e.g., formal, informal, objective, persuasive) and the primary purpose of each document?\n\nStructure your comparison clearly with headings for each point.\n"

/-- `COMPARISON_PROMPT_TEMPLATE.format(doc1_text=..., doc2_text=...)`:
the two texts are substituted verbatim into the fixed template. -/
def COMPARISON_PROMPT_TEMPLATE_format (doc1_text doc2_text : String) : String :=
  tpl_before_doc1 ++ doc1_text ++ tpl_between_docs ++ doc2_text ++ tpl_after_doc2

/-- The error string returned by both requesters when the key is missing
(app.py lines 67 and 104). -/
def api_key_error_message : String :=
  "ERROR: OpenAI API key not found in Streamlit Secrets. Please configure it (`OPENAI_API_KEY`)."

/-- The request built by `get_gpt41_comparison` (app.py lines 78-88):
flat string input, no reasoning parameter, both texts truncated. -/
def gpt41_request (doc1_text doc2_text model_name : String) : Request :=
  { model := model_name
    reasoning := none
    input := RequestInput.flat
      (COMPARISON_PROMPT_TEMPLATE_format
        (doc1_text.take max_tokens_per_doc) (doc2_text.take max_tokens_per_doc)) }

/-- The request built by `get_o3_comparison` (app.py lines 110-126):
one user message, `reasoning effort medium`, both texts truncated. -/
def o3_request (doc1_text doc2_text model_name : String) : Request :=
  { model := model_name
    reasoning := some "medium"
    input := RequestInput.messages
      [("user",
        COMPARISON_PROMPT_TEMPLATE_format
          (doc1_text.take max_tokens_per_doc) (doc2_text.take max_tokens_per_doc))] }

/-- `get_gpt41_comparison` (app.py lines 59-92).  Returns the result
string and the list of requests sent to the provider. -/
def get_gpt41_comparison (secrets : Secrets) (provider : Provider)
    (doc1_text doc2_text model_name : String) : String × List Request :=
  let openai_api_key := secrets "OPENAI_API_KEY"
  if !isTruthy openai_api_key then
    (api_key_error_message, [])
  else
    let req := gpt41_request doc1_text doc2_text model_name
    match provider req with
    | Except.ok output_text => (output_text, [req])
    | Except.error e =>
        ("ERROR: An error occurred with GPT-4.1 (" ++ model_name ++ ") comparison: " ++ e,
         [req])

/-- `get_o3_comparison` (app.py lines 96-130). -/
def get_o3_comparison (secrets : Secrets) (provider : Provider)
    (doc1_text doc2_text model_name : String) : String × List Request :=
  let openai_api_key := secrets "OPENAI_API_KEY"
  if !isTruthy openai_api_key then
    (api_key_error_message, [])
  else
    let req := o3_request doc1_text doc2_text model_name
    match provider req with
    | Except.ok output_text => (output_text, [req])
    | Except.error e =>
        ("ERROR: An error occurred with O3 (" ++ model_name ++ ") comparison: " ++ e,
         [req])

deriving instance DecidableEq for Except

/-- An uploaded PDF byte stream, modelled by how PyMuPDF parses it:
`invalid e` when `fitz.open` raises `e`; `valid pages` when it opens into
a list of pages, each of which either yields its text or raises. -/
inductive PdfStream where
  | invalid (e : String)
  | valid (pages : List (Except String String))
deriving DecidableEq, Repr

/-- The message shown by `st.error` when extraction fails (app.py line 34). -/
def pdf_error_message (e : String) : String :=
  "Error extracting text with PyMuPDF: " ++ e

/-- The accumulation loop `for page in doc: text += page.get_text()`
(app.py lines 29-30), threading the accumulator left to right and
propagating the first page exception. -/
def readPages : String → List (Except String String) → Except String String
  | acc, [] => Except.ok acc
  | acc, Except.ok t :: rest => readPages (acc ++ t) rest
  | _, Except.error e :: _ => Except.error e

/-- `extract_text_from_pdf` (app.py lines 19-36): returns the extracted
text and the list of `st.error` messages displayed. -/
def extract_text_from_pdf : PdfStream → String × List String
  | PdfStream.invalid e => ("", [pdf_error_message e])
  | PdfStream.valid pages =>
    match readPages "" pages with
    | Except.ok text => (text, [])
    | Except.error e => ("", [pdf_error_message e])

/-- Whether parsing this stream fails: either `fitz.open` raises or some
page `get_text` call raises. -/
def hasParseFailure : PdfStream → Bool
  | PdfStream.invalid _ => true
  | PdfStream.valid pages => pages.any fun p =>
      match p with
      | Except.error _ => true
      | Except.ok _ => false

/-- One Streamlit display effect emitted by the compare-button handler.
Per-model output carries the index of the `result_cols` column it is
rendered in. -/
inductive UIEvent where
  | warning (msg : String)
  | error (msg : String)
  | success (msg : String)
  | subheaderIn (col : Nat) (msg : String)
  | markdownIn (col : Nat) (msg : String)
  | copyIn (col : Nat) (text key : String)
deriving DecidableEq, Repr

/-- The `openai_models_for_selection` dict (app.py lines 143-146) as a
lookup; `none` models a `KeyError` on subscripting. -/
def openai_models_for_selection (display_name : String) : Option String :=
  if display_name = "gpt-4.1" then some "gpt-4.1"
  else if display_name = "o3" then some "o3"
  else none

/-- The unique key of the copy-to-clipboard control
(app.py lines 231-234). -/
def copy_key (model_id : String) : String :=
  "copy_" ++ ((model_id.replace "." "_").replace "-" "_")

/-- The `if display_name == ... / elif ... / else` dispatch in the loop
body (app.py lines 220-225). -/
def dispatch_model (secrets : Secrets) (provider : Provider)
    (doc1_text doc2_text display_name model_id : String) : String × List Request :=
  if display_name = "gpt-4.1" then
    get_gpt41_comparison secrets provider doc1_text doc2_text model_id
  else if display_name = "o3" then
    get_o3_comparison secrets provider doc1_text doc2_text model_id
  else
    ("ERROR: Unrecognized LLM selected: " ++ display_name, [])

/-- Warning shown when a document is missing (app.py line 187). -/
def upload_warning : String := "Please upload both PDF documents to compare."

/-- Warning shown when no model is selected (app.py line 189). -/
def select_warning : String := "Please select at least one LLM to run for comparison."

/-- Error shown by the handler when the key is missing (app.py line 194). -/
def key_error_message : String :=
  "OpenAI API key (`OPENAI_API_KEY`) not found in Streamlit Secrets. Please configure it to proceed."

/-- Error shown when extraction yields empty text (app.py line 203). -/
def extract_fail_error : String :=
  "Could not extract text from one or both PDFs. Please ensure they are not scanned images or malformed."

/-- Success message after extraction (app.py line 205). -/
def extract_success_message : String :=
  "Text extracted successfully! Initiating LLM comparison(s)..."

/-- Success message after the loop (app.py line 236). -/
def all_done_message : String :=
  "All selected comparisons complete! Please review the outputs above."

/-- The `for i, display_name in enumerate(selected_llm_display_names)`
loop (app.py lines 213-234).  Returns the display events, the outbound
requests, and—when the dict subscript raises `KeyError`—the uncaught
exception that stops the script at that point.  Note the subscript on
line 215 runs before the column and subheader of lines 216-217. -/
def run_loop (secrets : Secrets) (provider : Provider)
    (doc1_text doc2_text : String) :
    Nat → List String → List UIEvent × List Request × Option String
  | _, [] => ([], [], none)
  | i, display_name :: rest =>
    match openai_models_for_selection display_name with
    | none => ([], [], some ("KeyError: " ++ display_name))
    | some model_id =>
      let rc := dispatch_model secrets provider doc1_text doc2_text display_name model_id
      let evs := [UIEvent.subheaderIn i ("Comparison by " ++ display_name),
                  UIEvent.markdownIn i rc.1,
                  UIEvent.copyIn i rc.1 (copy_key model_id)]
      let r := run_loop secrets provider doc1_text doc2_text (i + 1) rest
      (evs ++ r.1, rc.2 ++ r.2.1, r.2.2)

/-- The interface state when the compare button is clicked: the two
uploads, the multiselect value, the secrets store, and the provider. -/
structure AppState where
  uploaded_file1 : Option PdfStream
  uploaded_file2 : Option PdfStream
  selected_llm_display_names : List String
  secrets : Secrets
  provider : Provider

/-- What one click of the compare button did: the display events in
order, how many times `extract_text_from_pdf` ran, the outbound requests,
and an uncaught exception when the run crashed. -/
structure RunResult where
  events : List UIEvent
  extractions : Nat
  calls : List Request
  exn : Option String
deriving DecidableEq, Repr

/-- The `if compare_button:` handler (app.py lines 184-236).  Python
truthiness of the upload objects is `Option.isSome`; truthiness of the
extracted strings is nonemptiness; the key check mirrors lines 192-194. -/
def compare_handler (st : AppState) : RunResult :=
  match st.uploaded_file1, st.uploaded_file2 with
  | none, _ =>
    { events := [UIEvent.warning upload_warning], extractions := 0, calls := [], exn := none }
  | some _, none =>
    { events := [UIEvent.warning upload_warning], extractions := 0, calls := [], exn := none }
  | some f1, some f2 =>
    if st.selected_llm_display_names = [] then
      { events := [UIEvent.warning select_warning], extractions := 0, calls := [], exn := none }
    else if !isTruthy (st.secrets "OPENAI_API_KEY") then
      { events := [UIEvent.error key_error_message], extractions := 0, calls := [], exn := none }
    else
      let r1 := extract_text_from_pdf f1
      let r2 := extract_text_from_pdf f2
      let extraction_events := r1.2.map UIEvent.error ++ r2.2.map UIEvent.error
      if r1.1 = "" ∨ r2.1 = "" then
        { events := extraction_events ++ [UIEvent.error extract_fail_error]
          extractions := 2, calls := [], exn := none }
      else
        let r := run_loop st.secrets st.provider r1.1 r2.1 0 st.selected_llm_display_names
        { events := extraction_events ++ [UIEvent.success extract_success_message] ++ r.1
            ++ (if r.2.2 = none then [UIEvent.success all_done_message] else [])
          extractions := 2, calls := r.2.1, exn := r.2.2 }

/-- A secrets store holding a nonempty key, for concrete runs. -/
def sample_secrets : Secrets := fun _ => some "sk-test"

/-- A secrets store with no key configured. -/
def no_secrets : Secrets := fun _ => none

/-- A provider that always answers. -/
def ok_provider : Provider := fun _ => Except.ok "MODEL OUTPUT"

/-- A provider whose every call raises. -/
def fail_provider : Provider := fun _ => Except.error "boom"

/-- A two-page text-bearing document. -/
def sample_pdf : PdfStream :=
  PdfStream.valid [Except.ok "Paper A page 1. ", Except.ok "Paper A page 2."]

/-- A one-page text-bearing document. -/
def sample_pdf2 : PdfStream := PdfStream.valid [Except.ok "Paper B."]

/-- A stream on which `fitz.open` raises. -/
def broken_pdf : PdfStream := PdfStream.invalid "cannot open broken document"

/-- The interface state with both documents uploaded. -/
def readyState (f1 f2 : PdfStream) (names : List String)
    (secrets : Secrets) (provider : Provider) : AppState :=
  { uploaded_file1 := some f1, uploaded_file2 := some f2
    selected_llm_display_names := names, secrets := secrets, provider := provider }

/-- Extracts the single prompt string carried by a request, whichever of
the two request shapes it uses. -/
def request_prompt : Request → Option String
  | { input := RequestInput.flat t, .. } => some t
  | { input := RequestInput.messages [(_, c)], .. } => some c
  | _ => none

/-! ### Helper lemmas -/

theorem gpt41_calls_eq (secrets : Secrets) (provider : Provider) (d1 d2 m : String)
    (hk : isTruthy (secrets "OPENAI_API_KEY") = true) :
    (get_gpt41_comparison secrets provider d1 d2 m).2 = [gpt41_request d1 d2 m] := by
  cases hp : provider (gpt41_request d1 d2 m) <;>
    simp [get_gpt41_comparison, hk, hp]

theorem o3_calls_eq (secrets : Secrets) (provider : Provider) (d1 d2 m : String)
    (hk : isTruthy (secrets "OPENAI_API_KEY") = true) :
    (get_o3_comparison secrets provider d1 d2 m).2 = [o3_request d1 d2 m] := by
  cases hp : provider (o3_request d1 d2 m) <;>
    simp [get_o3_comparison, hk, hp]

theorem string_take_data (s : String) (n : Nat) : (s.take n).data = s.data.take n := by
  rw [String.take_eq]

theorem string_take_length (s : String) (n : Nat) : (s.take n).length = min n s.length := by
  rw [String.take_eq]
  show (s.data.take n).length = min n s.length
  rw [List.length_take]
  rfl

theorem string_take_of_length_le (s : String) (n : Nat) (h : s.length ≤ n) :
    s.take n = s := by
  apply String.ext
  rw [string_take_data]
  exact List.take_of_length_le h

/-! ### C1 -/

/-- C1: when the `OPENAI_API_KEY` secret is absent, both requester
variants return the error-marked key message immediately and send no
request to the provider (an empty call trace). -/
theorem requesters_error_without_key (secrets : Secrets) (provider : Provider)
    (d1 d2 m1 m2 : String) (h : secrets "OPENAI_API_KEY" = none) :
    get_gpt41_comparison secrets provider d1 d2 m1 = (api_key_error_message, []) ∧
    get_o3_comparison secrets provider d1 d2 m2 = (api_key_error_message, []) := by
  constructor <;> simp [get_gpt41_comparison, get_o3_comparison, h, isTruthy]

/-- Witness for C1 at a concrete empty secrets store. -/
theorem requesters_error_without_key_witness :
    get_gpt41_comparison no_secrets ok_provider "alpha" "beta" "gpt-4.1" =
      (api_key_error_message, []) ∧
    get_o3_comparison no_secrets ok_provider "alpha" "beta" "o3" =
      (api_key_error_message, []) :=
  requesters_error_without_key no_secrets ok_provider "alpha" "beta" "gpt-4.1" "o3" rfl

/-! ### C2 -/

/-- C2: whenever the provider call raises, each requester returns (never
raises) a single string that starts with the marker `ERROR:` and ends with
the exception description, for both request variants. -/
theorem requesters_wrap_exception (secrets : Secrets) (provider : Provider)
    (d1 d2 m e1 e2 : String)
    (hk : isTruthy (secrets "OPENAI_API_KEY") = true)
    (h1 : provider (gpt41_request d1 d2 m) = Except.error e1)
    (h2 : provider (o3_request d1 d2 m) = Except.error e2) :
    (get_gpt41_comparison secrets provider d1 d2 m).1 =
      "ERROR:" ++ (" An error occurred with GPT-4.1 (" ++ m ++ ") comparison: " ++ e1) ∧
    (get_o3_comparison secrets provider d1 d2 m).1 =
      "ERROR:" ++ (" An error occurred with O3 (" ++ m ++ ") comparison: " ++ e2) := by
  constructor
  · have hr : (get_gpt41_comparison secrets provider d1 d2 m).1 =
        "ERROR: An error occurred with GPT-4.1 (" ++ m ++ ") comparison: " ++ e1 := by
      simp [get_gpt41_comparison, hk, h1]
    rw [hr,
      (by decide : ("ERROR: An error occurred with GPT-4.1 (" : String) =
        "ERROR:" ++ " An error occurred with GPT-4.1 (")]
    simp only [String.append_assoc]
  · have hr : (get_o3_comparison secrets provider d1 d2 m).1 =
        "ERROR: An error occurred with O3 (" ++ m ++ ") comparison: " ++ e2 := by
      simp [get_o3_comparison, hk, h2]
    rw [hr,
      (by decide : ("ERROR: An error occurred with O3 (" : String) =
        "ERROR:" ++ " An error occurred with O3 (")]
    simp only [String.append_assoc]

/-- Witness for C2 at a provider whose every call raises `boom`. -/
theorem requesters_wrap_exception_witness :
    (get_gpt41_comparison sample_secrets fail_provider "a" "b" "gpt-4.1").1 =
      "ERROR:" ++ (" An error occurred with GPT-4.1 (" ++ "gpt-4.1" ++ ") comparison: " ++ "boom") ∧
    (get_o3_comparison sample_secrets fail_provider "a" "b" "gpt-4.1").1 =
      "ERROR:" ++ (" An error occurred with O3 (" ++ "gpt-4.1" ++ ") comparison: " ++ "boom") :=
  requesters_wrap_exception sample_secrets fail_provider "a" "b" "gpt-4.1" "boom" "boom"
    rfl rfl rfl

/-! ### C3 -/

/-- C3: with a configured key, each variant sends exactly one request
whose prompt embeds `doc.take 60000` for each document: for a text over
the budget that is a 60000-character prefix (by character count), and a
text at or under the budget is embedded unchanged. -/
theorem requests_truncate_to_budget (secrets : Secrets) (provider : Provider)
    (d1 d2 m : String) (hk : isTruthy (secrets "OPENAI_API_KEY") = true) :
    (get_gpt41_comparison secrets provider d1 d2 m).2 = [gpt41_request d1 d2 m] ∧
    (get_o3_comparison secrets provider d1 d2 m).2 = [o3_request d1 d2 m] ∧
    (gpt41_request d1 d2 m).input = RequestInput.flat
      (COMPARISON_PROMPT_TEMPLATE_format
        (d1.take max_tokens_per_doc) (d2.take max_tokens_per_doc)) ∧
    (o3_request d1 d2 m).input = RequestInput.messages
      [("user", COMPARISON_PROMPT_TEMPLATE_format
        (d1.take max_tokens_per_doc) (d2.take max_tokens_per_doc))] ∧
    (max_tokens_per_doc < d1.length →
      (d1.take max_tokens_per_doc).length = max_tokens_per_doc) ∧
    (max_tokens_per_doc < d2.length →
      (d2.take max_tokens_per_doc).length = max_tokens_per_doc) ∧
    (d1.take max_tokens_per_doc).data <+: d1.data ∧
    (d2.take max_tokens_per_doc).data <+: d2.data ∧
    (d1.length ≤ max_tokens_per_doc → d1.take max_tokens_per_doc = d1) ∧
    (d2.length ≤ max_tokens_per_doc → d2.take max_tokens_per_doc = d2) := by
  refine ⟨gpt41_calls_eq secrets provider d1 d2 m hk,
    o3_calls_eq secrets provider d1 d2 m hk, rfl, rfl, ?_, ?_, ?_, ?_, ?_, ?_⟩
  · intro h
    rw [string_take_length]
    omega
  · intro h
    rw [string_take_length]
    omega
  · rw [string_take_data]
    exact ⟨d1.data.drop max_tokens_per_doc, List.take_append_drop _ _⟩
  · rw [string_take_data]
    exact ⟨d2.data.drop max_tokens_per_doc, List.take_append_drop _ _⟩
  · exact string_take_of_length_le d1 max_tokens_per_doc
  · exact string_take_of_length_le d2 max_tokens_per_doc

/-- Witness for C3 at short concrete documents and key present. -/
theorem requests_truncate_to_budget_witness :
    (get_gpt41_comparison sample_secrets ok_provider "alpha" "beta" "gpt-4.1").2 =
      [gpt41_request "alpha" "beta" "gpt-4.1"] ∧
    ("alpha" : String).length ≤ max_tokens_per_doc ∧
    ("alpha" : String).take max_tokens_per_doc = "alpha" := by
  have h := requests_truncate_to_budget sample_secrets ok_provider "alpha" "beta" "gpt-4.1" rfl
  exact ⟨h.1, by decide, h.2.2.2.2.2.2.2.2.1 (by decide)⟩

/-! ### C7 -/

/-- C7: both variants build the identical prompt: the same shared template
with the two texts, each truncated to the one fixed budget, substituted
verbatim; the two requests differ only in shape (flat input without
reasoning parameter versus one user message with reasoning effort
`medium`), even for distinct model identifiers. -/
theorem variants_share_prompt (d1 d2 m1 m2 : String) :
    request_prompt (gpt41_request d1 d2 m1) = request_prompt (o3_request d1 d2 m2) ∧
    request_prompt (gpt41_request d1 d2 m1) =
      some (tpl_before_doc1 ++ d1.take max_tokens_per_doc ++ tpl_between_docs
        ++ d2.take max_tokens_per_doc ++ tpl_after_doc2) ∧
    (gpt41_request d1 d2 m1).model = m1 ∧
    (gpt41_request d1 d2 m1).reasoning = none ∧
    (o3_request d1 d2 m2).model = m2 ∧
    (o3_request d1 d2 m2).reasoning = some "medium" ∧
    (gpt41_request d1 d2 m1).input =
      RequestInput.flat (COMPARISON_PROMPT_TEMPLATE_format
        (d1.take max_tokens_per_doc) (d2.take max_tokens_per_doc)) ∧
    (o3_request d1 d2 m2).input =
      RequestInput.messages [("user", COMPARISON_PROMPT_TEMPLATE_format
        (d1.take max_tokens_per_doc) (d2.take max_tokens_per_doc))] :=
  ⟨rfl, rfl, rfl, rfl, rfl, rfl, rfl, rfl⟩

/-! ### C4 -/

theorem readPages_error (pages : List (Except String String)) :
    ∀ acc, (pages.any fun p => match p with
      | Except.error _ => true
      | Except.ok _ => false) = true →
    ∃ e, readPages acc pages = Except.error e := by
  induction pages with
  | nil => intro acc h; simp at h
  | cons p rest ih =>
    intro acc h
    cases p with
    | error e => exact ⟨e, rfl⟩
    | ok t =>
      simp only [List.any_cons, Bool.false_or] at h
      exact ih (acc ++ t) h

/-- C4: on any parsing failure, whether the stream fails to open or some
page raises, extraction returns the empty string and surfaces exactly one
user-visible error message (and, being a total function, raises nothing). -/
theorem extraction_failure_yields_empty (s : PdfStream)
    (h : hasParseFailure s = true) :
    (extract_text_from_pdf s).1 = "" ∧
    ∃ e, (extract_text_from_pdf s).2 = [pdf_error_message e] := by
  cases s with
  | invalid e => exact ⟨rfl, e, rfl⟩
  | valid pages =>
    have hp : (pages.any fun p => match p with
        | Except.error _ => true
        | Except.ok _ => false) = true := h
    obtain ⟨e, he⟩ := readPages_error pages "" hp
    constructor
    · simp [extract_text_from_pdf, he]
    · exact ⟨e, by simp [extract_text_from_pdf, he]⟩

/-- Witness for C4 at a stream that fails to open. -/
theorem extraction_failure_yields_empty_witness :
    (extract_text_from_pdf broken_pdf).1 = "" ∧
    ∃ e, (extract_text_from_pdf broken_pdf).2 = [pdf_error_message e] :=
  extraction_failure_yields_empty broken_pdf rfl

/-! ### C9 -/

theorem readPages_ok (texts : List String) : ∀ acc,
    readPages acc (texts.map Except.ok) =
      Except.ok (List.foldl (fun r s => r ++ s) acc texts) := by
  induction texts with
  | nil => intro acc; rfl
  | cons t rest ih => intro acc; simpa [readPages] using ih (acc ++ t)

theorem foldl_append_length (texts : List String) : ∀ acc : String,
    (List.foldl (fun r s => r ++ s) acc texts).length =
      acc.length + (texts.map String.length).sum := by
  induction texts with
  | nil => intro acc; simp
  | cons t rest ih =>
    intro acc
    simp only [List.foldl_cons, List.map_cons, List.sum_cons, ih (acc ++ t),
      String.length_append]
    omega

/-- C9: on a stream whose every page yields text, extraction returns the
page texts concatenated in page order with no error message; with two
or more pages all text-bearing, the result is non-empty. -/
theorem extraction_concatenates_pages (texts : List String)
    (h2 : 2 ≤ texts.length) (hne : ∀ t ∈ texts, t ≠ "") :
    extract_text_from_pdf (PdfStream.valid (texts.map Except.ok)) =
      (String.join texts, []) ∧
    String.join texts ≠ "" := by
  constructor
  · simp [extract_text_from_pdf, readPages_ok texts ""]
    rfl
  · cases texts with
    | nil => simp at h2
    | cons t rest =>
      intro hj
      have hlen := congrArg String.length hj
      rw [show String.join (t :: rest) =
        List.foldl (fun r s => r ++ s) "" (t :: rest) from rfl,
        foldl_append_length] at hlen
      simp only [List.map_cons, List.sum_cons] at hlen
      have ht : t ≠ "" := hne t (by simp)
      have htl : t.length = 0 := by
        have : ("" : String).length = 0 := rfl
        omega
      apply ht
      apply String.ext
      have : t.data.length = 0 := htl
      simpa using List.eq_nil_of_length_eq_zero this

/-- Witness for C9 at a concrete two-page document. -/
theorem extraction_concatenates_pages_witness :
    extract_text_from_pdf
        (PdfStream.valid (["Paper A page 1. ", "Paper A page 2."].map Except.ok)) =
      (String.join ["Paper A page 1. ", "Paper A page 2."], []) ∧
    String.join ["Paper A page 1. ", "Paper A page 2."] ≠ "" :=
  extraction_concatenates_pages ["Paper A page 1. ", "Paper A page 2."]
    (by decide) (by decide)

/-! ### C5 -/

/-- C5: the compare handler validates its three preconditions with a
distinct message each — missing document, empty model selection, missing
key — and when any of them fails it runs no extraction and sends no
request. -/
theorem handler_validates_preconditions (st : AppState) :
    ((st.uploaded_file1 = none ∨ st.uploaded_file2 = none) →
      compare_handler st =
        { events := [UIEvent.warning upload_warning], extractions := 0
          calls := [], exn := none }) ∧
    (st.uploaded_file1.isSome = true → st.uploaded_file2.isSome = true →
      st.selected_llm_display_names = [] →
      compare_handler st =
        { events := [UIEvent.warning select_warning], extractions := 0
          calls := [], exn := none }) ∧
    (st.uploaded_file1.isSome = true → st.uploaded_file2.isSome = true →
      st.selected_llm_display_names ≠ [] →
      isTruthy (st.secrets "OPENAI_API_KEY") = false →
      compare_handler st =
        { events := [UIEvent.error key_error_message], extractions := 0
          calls := [], exn := none }) := by
  refine ⟨?_, ?_, ?_⟩
  · rintro (h | h)
    · simp [compare_handler, h]
    · cases hf : st.uploaded_file1 <;> simp [compare_handler, hf, h]
  · intro hf1 hf2 hsel
    rw [Option.isSome_iff_exists] at hf1 hf2
    obtain ⟨f1, h1⟩ := hf1
    obtain ⟨f2, h2⟩ := hf2
    simp [compare_handler, h1, h2, hsel]
  · intro hf1 hf2 hsel hk
    rw [Option.isSome_iff_exists] at hf1 hf2
    obtain ⟨f1, h1⟩ := hf1
    obtain ⟨f2, h2⟩ := hf2
    simp [compare_handler, h1, h2, hsel, hk]

/-- Witness for C5 at three concrete states, one per failing
precondition. -/
theorem handler_validates_preconditions_witness :
    compare_handler
        { uploaded_file1 := none, uploaded_file2 := some sample_pdf2
          selected_llm_display_names := ["gpt-4.1"]
          secrets := sample_secrets, provider := ok_provider } =
      { events := [UIEvent.warning upload_warning], extractions := 0
        calls := [], exn := none } ∧
    compare_handler (readyState sample_pdf sample_pdf2 [] sample_secrets ok_provider) =
      { events := [UIEvent.warning select_warning], extractions := 0
        calls := [], exn := none } ∧
    compare_handler (readyState sample_pdf sample_pdf2 ["gpt-4.1"] no_secrets ok_provider) =
      { events := [UIEvent.error key_error_message], extractions := 0
        calls := [], exn := none } :=
  ⟨(handler_validates_preconditions _).1 (Or.inl rfl),
   (handler_validates_preconditions _).2.1 rfl rfl rfl,
   (handler_validates_preconditions _).2.2 rfl rfl (by decide) rfl⟩

/-! ### C6 -/

/-- C6: after all three preconditions pass, if either extraction comes
back empty the handler shows the extraction error and stops: no request
is sent for any selected model and the run does not crash. -/
theorem handler_halts_on_empty_extraction (f1 f2 : PdfStream) (names : List String)
    (secrets : Secrets) (provider : Provider)
    (hnames : names ≠ []) (hk : isTruthy (secrets "OPENAI_API_KEY") = true)
    (hfail : (extract_text_from_pdf f1).1 = "" ∨ (extract_text_from_pdf f2).1 = "") :
    compare_handler (readyState f1 f2 names secrets provider) =
      { events := (extract_text_from_pdf f1).2.map UIEvent.error
          ++ ((extract_text_from_pdf f2).2.map UIEvent.error
            ++ [UIEvent.error extract_fail_error])
        extractions := 2, calls := [], exn := none } := by
  simp [compare_handler, readyState, hnames, hk, hfail]

/-- Witness for C6 at a run whose first document fails to parse. -/
theorem handler_halts_on_empty_extraction_witness :
    compare_handler
        (readyState broken_pdf sample_pdf2 ["gpt-4.1", "o3"] sample_secrets ok_provider) =
      { events := (extract_text_from_pdf broken_pdf).2.map UIEvent.error
          ++ ((extract_text_from_pdf sample_pdf2).2.map UIEvent.error
            ++ [UIEvent.error extract_fail_error])
        extractions := 2, calls := [], exn := none } :=
  handler_halts_on_empty_extraction broken_pdf sample_pdf2 ["gpt-4.1", "o3"]
    sample_secrets ok_provider (by decide) rfl (Or.inl rfl)

/-! ### C8 -/

/-- The one request a valid selection entry leads to: the dict maps each
of the two display names to itself, and the dispatch sends that name to
its requester. -/
def model_request (doc1_text doc2_text display_name : String) : Request :=
  if display_name = "gpt-4.1" then gpt41_request doc1_text doc2_text display_name
  else o3_request doc1_text doc2_text display_name

theorem model_request_model (doc1_text doc2_text display_name : String) :
    (model_request doc1_text doc2_text display_name).model = display_name := by
  unfold model_request
  split <;> rfl

theorem run_loop_calls (secrets : Secrets) (provider : Provider) (d1 d2 : String)
    (hk : isTruthy (secrets "OPENAI_API_KEY") = true) :
    ∀ (names : List String), (∀ d ∈ names, d = "gpt-4.1" ∨ d = "o3") → ∀ (i : Nat),
      (run_loop secrets provider d1 d2 i names).2 =
        (names.map (model_request d1 d2), none) := by
  intro names
  induction names with
  | nil => intro _ i; rfl
  | cons d rest ih =>
    intro hvalid i
    have hrest := fun x hx => hvalid x (List.mem_cons_of_mem _ hx)
    have hih := ih hrest (i + 1)
    have hfst := congrArg Prod.fst hih
    have hsnd := congrArg Prod.snd hih
    simp only at hfst hsnd
    rcases hvalid d (List.mem_cons_self _ _) with hd | hd <;> subst hd
    · have hc := gpt41_calls_eq secrets provider d1 d2 "gpt-4.1" hk
      simp [run_loop, openai_models_for_selection, dispatch_model, model_request,
        hc, hfst, hsnd]
    · have hc := o3_calls_eq secrets provider d1 d2 "o3" hk
      simp [run_loop, openai_models_for_selection, dispatch_model, model_request,
        hc, hfst, hsnd]

theorem run_loop_renders (secrets : Secrets) (provider : Provider) (d1 d2 : String) :
    ∀ (names : List String), (∀ d ∈ names, d = "gpt-4.1" ∨ d = "o3") →
    ∀ (i j : Nat) (hj : j < names.length),
      UIEvent.subheaderIn (i + j)
          ("Comparison by " ++ names.get ⟨j, hj⟩) ∈
        (run_loop secrets provider d1 d2 i names).1 ∧
      UIEvent.markdownIn (i + j)
          ((dispatch_model secrets provider d1 d2
            (names.get ⟨j, hj⟩) (names.get ⟨j, hj⟩)).1) ∈
        (run_loop secrets provider d1 d2 i names).1 := by
  intro names
  induction names with
  | nil => intro _ i j hj; exact absurd hj (by simp)
  | cons d rest ih =>
    intro hvalid i j hj
    have hrest := fun x hx => hvalid x (List.mem_cons_of_mem _ hx)
    have hlookup : openai_models_for_selection d = some d := by
      rcases hvalid d (List.mem_cons_self _ _) with hd | hd <;>
        simp [openai_models_for_selection, hd]
    cases j with
    | zero =>
      constructor <;> simp [run_loop, hlookup]
    | succ j =>
      have hj2 : j < rest.length := by
        simpa using Nat.lt_of_succ_lt_succ hj
      have hshift : i + (j + 1) = (i + 1) + j := by omega
      have hih := ih hrest (i + 1) j hj2
      constructor
      · rw [hshift]
        simp only [run_loop, hlookup, List.mem_append]
        right
        exact hih.1
      · rw [hshift]
        simp only [run_loop, hlookup, List.mem_append]
        right
        exact hih.2

/-- C8: with a nonempty valid selection, both documents extracted and the
key present, the handler sends exactly one request per selected model,
in selection order (the call list is the selection mapped to the per-name
request, so its model identifiers are the selection itself), renders each
model heading and result in the column with that model index, and the
run completes without a crash — for every provider, including one whose
calls all fail, so a failure of one model never prevents the next call. -/
theorem handler_runs_models_in_order (f1 f2 : PdfStream) (names : List String)
    (secrets : Secrets) (provider : Provider)
    (h1 : ¬(extract_text_from_pdf f1).1 = "")
    (h2 : ¬(extract_text_from_pdf f2).1 = "")
    (hk : isTruthy (secrets "OPENAI_API_KEY") = true)
    (hne : names ≠ [])
    (hvalid : ∀ d ∈ names, d = "gpt-4.1" ∨ d = "o3") :
    (compare_handler (readyState f1 f2 names secrets provider)).exn = none ∧
    (compare_handler (readyState f1 f2 names secrets provider)).calls =
      names.map
        (model_request (extract_text_from_pdf f1).1 (extract_text_from_pdf f2).1) ∧
    (compare_handler (readyState f1 f2 names secrets provider)).calls.map
      Request.model = names ∧
    ∀ (j : Nat) (hj : j < names.length),
      UIEvent.subheaderIn j ("Comparison by " ++ names.get ⟨j, hj⟩) ∈
        (compare_handler (readyState f1 f2 names secrets provider)).events ∧
      UIEvent.markdownIn j
          ((dispatch_model secrets provider
            (extract_text_from_pdf f1).1 (extract_text_from_pdf f2).1
            (names.get ⟨j, hj⟩) (names.get ⟨j, hj⟩)).1) ∈
        (compare_handler (readyState f1 f2 names secrets provider)).events := by
  have hcalls := run_loop_calls secrets provider
    (extract_text_from_pdf f1).1 (extract_text_from_pdf f2).1 hk names hvalid 0
  have hfst := congrArg Prod.fst hcalls
  have hsnd := congrArg Prod.snd hcalls
  simp only at hfst hsnd
  refine ⟨?_, ?_, ?_, ?_⟩
  · simp [compare_handler, readyState, hne, hk, h1, h2, hsnd]
  · simp [compare_handler, readyState, hne, hk, h1, h2, hfst]
  · simp [compare_handler, readyState, hne, hk, h1, h2, hfst, List.map_map,
      Function.comp, model_request_model]
    have hpt : ∀ d ∈ names,
        (Request.model ∘ model_request
          (extract_text_from_pdf f1).1 (extract_text_from_pdf f2).1) d = d :=
      fun d _ => model_request_model _ _ d
    rw [List.map_congr_left hpt]
    exact List.map_id names
  · intro j hj
    have hrend := run_loop_renders secrets provider
      (extract_text_from_pdf f1).1 (extract_text_from_pdf f2).1 names hvalid 0 j hj
    rw [Nat.zero_add] at hrend
    constructor
    · simp [compare_handler, readyState, hne, hk, h1, h2]
      exact hrend.1
    · simp [compare_handler, readyState, hne, hk, h1, h2]
      exact hrend.2

/-- Witness for C8: two models selected, every provider call failing —
both calls are still made, in order, and both columns are rendered. -/
theorem handler_runs_models_in_order_witness :
    (compare_handler
        (readyState sample_pdf sample_pdf2 ["gpt-4.1", "o3"]
          sample_secrets fail_provider)).exn = none ∧
    (compare_handler
        (readyState sample_pdf sample_pdf2 ["gpt-4.1", "o3"]
          sample_secrets fail_provider)).calls.map Request.model =
      ["gpt-4.1", "o3"] ∧
    UIEvent.subheaderIn 1 ("Comparison by " ++ "o3") ∈
      (compare_handler
        (readyState sample_pdf sample_pdf2 ["gpt-4.1", "o3"]
          sample_secrets fail_provider)).events := by
  have h := handler_runs_models_in_order sample_pdf sample_pdf2 ["gpt-4.1", "o3"]
    sample_secrets fail_provider (by decide) (by decide) rfl (by decide) (by decide)
  exact ⟨h.1, h.2.2.1, (h.2.2.2 1 (by decide)).1⟩

/-! ### C10 -/

/-- C10 counterexample: a display name outside the two-entry dict does
not reach the fallback branch at all — the dict subscript on line 215
raises `KeyError` first, so the run crashes with an uncaught exception
and the error-marked fallback string is never rendered. -/
theorem unrecognized_model_crashes :
    (compare_handler
        (readyState sample_pdf sample_pdf2 ["gemini"] sample_secrets ok_provider)).exn =
      some ("KeyError: " ++ "gemini") ∧
    UIEvent.markdownIn 0 ("ERROR: Unrecognized LLM selected: " ++ "gemini") ∉
      (compare_handler
        (readyState sample_pdf sample_pdf2 ["gemini"] sample_secrets ok_provider)).events := by
  decide

/-- C10 amended: selected names map to a requester exactly when they are
one of the two fixed entries (each to its own variant); for any other
name the loop crashes with `KeyError` before any dispatch, rendering and
calling nothing, so the fallback error string is unreachable. -/
theorem dispatch_totality_amended (secrets : Secrets) (provider : Provider)
    (d1 d2 name mid : String) :
    ((openai_models_for_selection name).isSome = true ↔
      (name = "gpt-4.1" ∨ name = "o3")) ∧
    (name = "gpt-4.1" → dispatch_model secrets provider d1 d2 name mid =
      get_gpt41_comparison secrets provider d1 d2 mid) ∧
    (name = "o3" → dispatch_model secrets provider d1 d2 name mid =
      get_o3_comparison secrets provider d1 d2 mid) ∧
    (openai_models_for_selection name = none →
      run_loop secrets provider d1 d2 0 [name] =
        ([], [], some ("KeyError: " ++ name))) := by
  refine ⟨?_, ?_, ?_, ?_⟩
  · unfold openai_models_for_selection
    by_cases hg : name = "gpt-4.1" <;> by_cases ho : name = "o3" <;> simp [hg, ho]
  · intro h
    subst h
    simp [dispatch_model]
  · intro h
    subst h
    simp [dispatch_model]
  · intro h
    simp [run_loop, h]

/-- Witness for C10 amended, at one name in the dict and one outside. -/
theorem dispatch_totality_amended_witness :
    dispatch_model sample_secrets ok_provider "a" "b" "gpt-4.1" "gpt-4.1" =
      get_gpt41_comparison sample_secrets ok_provider "a" "b" "gpt-4.1" ∧
    run_loop sample_secrets ok_provider "a" "b" 0 ["gemini"] =
      ([], [], some ("KeyError: " ++ "gemini")) :=
  ⟨(dispatch_totality_amended sample_secrets ok_provider "a" "b" "gpt-4.1" "gpt-4.1").2.1 rfl,
   (dispatch_totality_amended sample_secrets ok_provider "a" "b" "gemini" "gemini").2.2.2 rfl⟩

end Comparator
